import Mathlib

/-!
Verification of `scripts/check_pytorch_version.py`.

The script resolves the PyTorch version that produced a checkpoint file:
it first inspects the checkpoint's embedded metadata, then falls back to
the active environment's `torch.__version__`, parses the resulting string
into a `major.minor` prefix, and prints diagnostic output.

The embedding below models the script's functions directly:
* `parse_pytorch_version` embeds the Python function of the same name
  (regex `^(\d+)\.(\d+)\.` followed by `f"{major}.{minor}"`);
* `get_torch_version_from_checkpoint` embeds the checkpoint inspector,
  with the results of the external effects (`Path.exists`, `import torch`,
  `torch.load`) passed in as parameters;
* `resolve` and `main` embed the body of `main()`, producing an `Outcome`
  record of exit code, stdout text and stderr lines.
-/

namespace CheckPytorchVersion

/-- Fuel-driven digit extraction: prepends the base-10 digits of `n`
(most significant first) to `acc`.  The fuel only makes the recursion
structural; `n + 1` units always suffice. -/
def decCharsAux : Nat → Nat → List Char → List Char
  | 0, _, acc => acc
  | fuel + 1, n, acc =>
    if n < 10 then Nat.digitChar n :: acc
    else decCharsAux fuel (n / 10) (Nat.digitChar (n % 10) :: acc)

/-- Characters of the usual base-10 numeral of `n`, most significant first.
Embeds Python's decimal rendering of a nonnegative `int` (as in
`f"{major}.{minor}"`). -/
def decChars (n : Nat) : List Char :=
  decCharsAux (n + 1) n []

/-- Base-10 numeral of `n` as a string. -/
def dec (n : Nat) : String :=
  String.mk (decChars n)

/-- Value of a list of decimal digit characters, as computed by Python's
`int()` on a string of digits. -/
def digitsToNat (l : List Char) : Nat :=
  l.foldl (fun n c => 10 * n + (c.toNat - 48)) 0

/-- The regex step of `parse_pytorch_version`:
`re.match(r'^(\d+)\.(\d+)\.', version_str)` followed, on a match, by
`f"{major}.{minor}"` where `major`/`minor` are `int` of the two groups.
The regex is anchored, and greedy `\d+` followed by the non-digit `\.`
matches exactly the maximal leading digit run followed by a literal dot
(backtracking to a shorter run cannot make `\.` match a digit), so it is
embedded with `takeWhile`/`dropWhile` on the character list. -/
def parseChars (cs : List Char) : Option String :=
  let d1 := cs.takeWhile (fun c => c.isDigit)
  let r1 := cs.dropWhile (fun c => c.isDigit)
  if d1 = [] then none
  else if r1.head? = some '.' then
    let rest1 := r1.tail
    let d2 := rest1.takeWhile (fun c => c.isDigit)
    let r2 := rest1.dropWhile (fun c => c.isDigit)
    if d2 = [] then none
    else if r2.head? = some '.' then
      some (dec (digitsToNat d1) ++ "." ++ dec (digitsToNat d2))
    else none
  else none

/-- Embeds `parse_pytorch_version(version_str)` applied to a `str`:
`if not version_str: return None` (the empty string is falsy), then the
anchored regex match of `parseChars`. -/
def parse_pytorch_version (s : String) : Option String :=
  if s = "" then none else parseChars s.data

/-- A Python value as far as the script observes one: a string, `None`,
or a `dict` with string keys (an association list, first binding wins,
mirroring lookup in a Python `dict` whose keys are unique). -/
inductive PyVal where
  | vstr : String → PyVal
  | vnone : PyVal
  | vdict : List (String × PyVal) → PyVal

/-- Python truthiness of the modelled values: `""`, `None` and `{}` are
falsy, everything else truthy. -/
def pyTruthy : PyVal → Bool
  | .vstr s => s != ""
  | .vnone => false
  | .vdict d => !d.isEmpty

/-- Truthiness of an optional value (`None` for `Option.none`). -/
def pyTruthyOpt : Option PyVal → Bool
  | none => false
  | some v => pyTruthy v

/-- Python's `str()` of a modelled value, used by the `f"..."`
interpolation in `main`.  The script only ever prints a value that has
already passed `parse_pytorch_version`, hence a string; the other two
renderings are best-effort and unreachable in the printing path. -/
def pyStr : PyVal → String
  | .vstr s => s
  | .vnone => "None"
  | .vdict _ => "<dict>"

/-- Embeds `'torch_version' in s` for a Python `str` `s`: substring
membership. -/
def listInfixOf (p : List Char) : List Char → Bool
  | [] => p.isEmpty
  | c :: t => p.isPrefixOf (c :: t) || listInfixOf p t

/-- Outcome of scanning a loaded `dict` checkpoint for version keys:
a value was found and returned, an exception was raised (to be caught by
the enclosing `except`), or no key matched. -/
inductive InspectResult where
  | found : PyVal → InspectResult
  | exc : InspectResult
  | notFound : InspectResult

/-- Embeds the `callbacks` loop:
`for callback in ckpt.get('callbacks', {}).values():` keeps the first
`dict` value containing `'torch_version'`. -/
def checkCallbacks : List PyVal → InspectResult
  | [] => .notFound
  | .vdict d :: rest =>
    match List.lookup "torch_version" d with
    | some v => .found v
    | none => checkCallbacks rest
  | _ :: rest => checkCallbacks rest

/-- Embeds the `callbacks` step of the inspector.  `.values()` on a
non-`dict` raises `AttributeError`. -/
def checkCallbacksEntry (entries : List (String × PyVal)) : InspectResult :=
  match List.lookup "callbacks" entries with
  | none => .notFound
  | some (.vdict d) => checkCallbacks (d.map Prod.snd)
  | some _ => .exc

/-- Embeds the `metadata` step: guarded by `isinstance(metadata, dict)`,
so a non-`dict` value falls through to the `callbacks` step. -/
def checkMetadata (entries : List (String × PyVal)) : InspectResult :=
  match List.lookup "metadata" entries with
  | some (.vdict d) =>
    match List.lookup "torch_version" d with
    | some v => .found v
    | none => checkCallbacksEntry entries
  | _ => checkCallbacksEntry entries

/-- Embeds the body of `get_torch_version_from_checkpoint` on a loaded
`dict`: `hyper_parameters` first (no `isinstance` guard there, so
`'torch_version' in hparams` raises `TypeError` on `None`, and on a
`str` containing the substring the subsequent string subscript raises),
then `metadata`, then `callbacks`. -/
def inspectDict (entries : List (String × PyVal)) : InspectResult :=
  match List.lookup "hyper_parameters" entries with
  | some (.vdict d) =>
    match List.lookup "torch_version" d with
    | some v => .found v
    | none => checkMetadata entries
  | some (.vstr s) =>
    if listInfixOf "torch_version".data s.data then .exc
    else checkMetadata entries
  | some .vnone => .exc
  | none => checkMetadata entries

/-- Embeds `get_torch_version_from_checkpoint(checkpoint_path)`.
External effects are passed in: `pathOk` is `Path(checkpoint_path).exists()`,
`envTorch` is `torch.__version__` when `import torch` succeeds (`none`
when it raises `ImportError`), and `loadResult` is the value returned by
`torch.load` (`none` when loading raises).  Every exception inside the
`try` block is caught and turned into `None`; a loaded non-`dict`, or a
`dict` with no recognized key, yields the current `torch.__version__`
as a proxy. -/
def get_torch_version_from_checkpoint (pathOk : Bool) (envTorch : Option String)
    (loadResult : Option PyVal) : Option PyVal :=
  if !pathOk then none
  else
    match envTorch with
    | none => none
    | some tv =>
      match loadResult with
      | none => none
      | some ckpt =>
        match ckpt with
        | .vdict entries =>
          match inspectDict entries with
          | .found v => some v
          | .exc => none
          | .notFound => some (.vstr tv)
        | _ => some (.vstr tv)

/-- Embeds `get_torch_version_from_env()`: `torch.__version__` if the
runtime imports, `None` otherwise. -/
def get_torch_version_from_env (envTorch : Option String) : Option String :=
  envTorch

/-- The inputs `main()` reads from the outside world: the optional CLI
argument, whether that path exists on disk, the environment's torch
version (if importable), and the value `torch.load` would return. -/
structure World where
  argPath : Option String
  pathOk : Bool
  envTorch : Option String
  loadResult : Option PyVal

/-- Observable outcome of one run of the script: process exit code,
everything written to stdout (as one string, `print` appending a
newline and the final `sys.stdout.write` not), and the lines written
to stderr. -/
structure Outcome where
  exitCode : Nat
  stdout : String
  stderrLines : List String
deriving DecidableEq, Repr

/-- The version/source resolution portion of `main()`: try the
checkpoint (when an argument was given and is truthy), and on a falsy
result fall back to the environment, retagging the source.  Mirrors
`if not version: version = get_torch_version_from_env(); source = "environment"`. -/
def resolve (w : World) : Option PyVal × String :=
  let version : Option PyVal :=
    match w.argPath with
    | some p =>
      if p = "" then none
      else get_torch_version_from_checkpoint w.pathOk w.envTorch w.loadResult
    | none => none
  if pyTruthyOpt version then (version, "checkpoint")
  else ((get_torch_version_from_env w.envTorch).map PyVal.vstr, "environment")

/-- Embeds `parse_pytorch_version` applied to whatever `main` holds in
`version`: a non-string truthy value makes `re.match` raise `TypeError`
(`.error`), a falsy value returns `None` at the guard, a string is
parsed. -/
def parsePy : PyVal → Except Unit (Option String)
  | .vstr s => .ok (parse_pytorch_version s)
  | .vnone => .ok none
  | .vdict [] => .ok none
  | .vdict (_ :: _) => .error ()

/-- Embeds `main()` together with the `__main__` exception wrapper:
resolution, the unresolved-error exit, parsing, the unparseable-error
exit, and on success the three diagnostic `print` lines followed by
`sys.stdout.write(parsed_version)`.  An uncaught exception is printed
by the wrapper and exits with status 1. -/
def main (w : World) : Outcome :=
  let rs := resolve w
  match rs.1 with
  | none =>
    ⟨1, "", ["ERROR: Could not determine PyTorch version.",
             "Please ensure PyTorch is installed or provide a valid checkpoint file."]⟩
  | some v =>
    if pyTruthy v then
      match parsePy v with
      | .error _ => ⟨1, "", ["ERROR: <exception>"]⟩
      | .ok none => ⟨1, "", ["ERROR: Could not parse PyTorch version."]⟩
      | .ok (some mm) =>
        ⟨0, "PYTORCH_VERSION=" ++ pyStr v ++ "\n" ++
            "PYTORCH_MAJOR_MINOR=" ++ mm ++ "\n" ++
            "SOURCE=" ++ rs.2 ++ "\n" ++ mm, []⟩
    else
      ⟨1, "", ["ERROR: Could not determine PyTorch version.",
               "Please ensure PyTorch is installed or provide a valid checkpoint file."]⟩

/-! ### Properties of the decimal rendering -/

theorem digitChar_toNat (d : Nat) (h : d < 10) : (Nat.digitChar d).toNat = 48 + d := by
  interval_cases d <;> rfl

theorem digitChar_isDigit (d : Nat) (h : d < 10) : (Nat.digitChar d).isDigit = true := by
  interval_cases d <;> rfl

theorem decCharsAux_acc (fuel : Nat) :
    ∀ (n : Nat) (acc : List Char),
      decCharsAux fuel n acc = decCharsAux fuel n [] ++ acc := by
  induction fuel with
  | zero => intro n acc; simp [decCharsAux]
  | succ fuel ih =>
    intro n acc
    by_cases h : n < 10
    · simp [decCharsAux, h]
    · simp only [decCharsAux, if_neg h]
      rw [ih (n / 10) (Nat.digitChar (n % 10) :: acc),
          ih (n / 10) [Nat.digitChar (n % 10)]]
      simp

theorem decCharsAux_fuel (f1 : Nat) :
    ∀ (f2 n : Nat) (acc : List Char), n < f1 → n < f2 →
      decCharsAux f1 n acc = decCharsAux f2 n acc := by
  induction f1 with
  | zero => intro f2 n acc h1; omega
  | succ f1 ih =>
    intro f2 n acc h1 h2
    match f2, h2 with
    | f2 + 1, _ =>
      by_cases h : n < 10
      · simp [decCharsAux, h]
      · simp only [decCharsAux, if_neg h]
        have hd : n / 10 < n := Nat.div_lt_self (by omega) (by omega)
        exact ih f2 (n / 10) _ (by omega) (by omega)

theorem decCharsAux_succ (fuel n : Nat) (acc : List Char) :
    decCharsAux (fuel + 1) n acc =
      if n < 10 then Nat.digitChar n :: acc
      else decCharsAux fuel (n / 10) (Nat.digitChar (n % 10) :: acc) := rfl

theorem decChars_step (n : Nat) (h : ¬ n < 10) :
    decChars n = decChars (n / 10) ++ [Nat.digitChar (n % 10)] := by
  have hd : n / 10 < n := Nat.div_lt_self (by omega) (by omega)
  unfold decChars
  rw [decCharsAux_succ, if_neg h,
      decCharsAux_acc n (n / 10) [Nat.digitChar (n % 10)],
      decCharsAux_fuel n (n / 10 + 1) (n / 10) [] (by omega) (by omega)]

theorem decChars_small (n : Nat) (h : n < 10) : decChars n = [Nat.digitChar n] := by
  unfold decChars
  simp [decCharsAux, h]

theorem decChars_ne_nil (n : Nat) : decChars n ≠ [] := by
  by_cases h : n < 10
  · rw [decChars_small n h]; simp
  · rw [decChars_step n h]; simp

theorem decChars_isDigit (n : Nat) : ∀ c ∈ decChars n, c.isDigit = true := by
  induction n using Nat.strong_induction_on with
  | _ n ih =>
    by_cases h : n < 10
    · rw [decChars_small n h]
      intro c hc
      simp only [List.mem_singleton] at hc
      exact hc ▸ digitChar_isDigit n h
    · rw [decChars_step n h]
      intro c hc
      rcases List.mem_append.mp hc with hc | hc
      · exact ih (n / 10) (Nat.div_lt_self (by omega) (by omega)) c hc
      · simp only [List.mem_singleton] at hc
        exact hc ▸ digitChar_isDigit (n % 10) (Nat.mod_lt n (by omega))

theorem digitsToNat_decChars (n : Nat) : digitsToNat (decChars n) = n := by
  induction n using Nat.strong_induction_on with
  | _ n ih =>
    by_cases h : n < 10
    · rw [decChars_small n h]
      simp [digitsToNat, digitChar_toNat n h]
    · rw [decChars_step n h]
      unfold digitsToNat
      rw [List.foldl_append]
      have hrec : digitsToNat (decChars (n / 10)) = n / 10 :=
        ih (n / 10) (Nat.div_lt_self (by omega) (by omega))
      unfold digitsToNat at hrec
      rw [hrec]
      simp only [List.foldl_cons, List.foldl_nil,
        digitChar_toNat (n % 10) (Nat.mod_lt n (by omega))]
      omega

theorem data_dec (n : Nat) : (dec n).data = decChars n := rfl

/-! ### Properties of the parser -/

theorem data_eq_nil_iff (a : String) : a.data = [] ↔ a = "" := by
  constructor
  · intro h; apply String.ext; rw [h]
  · intro h; rw [h]

theorem takeWhile_all_append (p : Char → Bool) (a : List Char) (c : Char) (r : List Char)
    (ha : ∀ x ∈ a, p x = true) (hc : p c = false) :
    (a ++ c :: r).takeWhile p = a ∧ (a ++ c :: r).dropWhile p = c :: r := by
  induction a with
  | nil => simp [List.takeWhile_cons, List.dropWhile_cons, hc]
  | cons x xs ih =>
    have hx : p x = true := ha x (by simp)
    have ih2 := ih (fun y hy => ha y (by simp [hy]))
    simp [List.takeWhile_cons, List.dropWhile_cons, hx, ih2.1, ih2.2]

theorem parseChars_shape (a b r : List Char) (ha : a ≠ []) (hb : b ≠ [])
    (hda : ∀ c ∈ a, c.isDigit = true) (hdb : ∀ c ∈ b, c.isDigit = true) :
    parseChars (a ++ '.' :: (b ++ '.' :: r)) =
      some (dec (digitsToNat a) ++ "." ++ dec (digitsToNat b)) := by
  obtain ⟨h1t, h1d⟩ := takeWhile_all_append (fun c => c.isDigit) a '.' (b ++ '.' :: r) hda rfl
  obtain ⟨h2t, h2d⟩ := takeWhile_all_append (fun c => c.isDigit) b '.' r hdb rfl
  simp only [parseChars, h1t, h1d, List.head?_cons, List.tail_cons, h2t, h2d]
  simp [ha, hb]

theorem parseChars_isSome_iff (cs : List Char) :
    (parseChars cs).isSome = true ↔
      ∃ a b r : List Char, a ≠ [] ∧ b ≠ [] ∧ (∀ c ∈ a, c.isDigit = true) ∧
        (∀ c ∈ b, c.isDigit = true) ∧ cs = a ++ '.' :: (b ++ '.' :: r) := by
  constructor
  · intro h
    by_cases h1 : cs.takeWhile (fun c => c.isDigit) = []
    · simp [parseChars, h1] at h
    rcases hr1 : cs.dropWhile (fun c => c.isDigit) with _ | ⟨e1, rest1⟩
    · simp [parseChars, h1, hr1] at h
    by_cases he1 : e1 = '.'
    swap
    · simp [parseChars, h1, hr1, he1] at h
    subst he1
    by_cases h2 : rest1.takeWhile (fun c => c.isDigit) = []
    · simp [parseChars, h1, hr1, h2] at h
    rcases hr2 : rest1.dropWhile (fun c => c.isDigit) with _ | ⟨e2, rest2⟩
    · simp [parseChars, h1, hr1, h2, hr2] at h
    by_cases he2 : e2 = '.'
    swap
    · simp [parseChars, h1, hr1, h2, hr2, he2] at h
    subst he2
    have e1eq : cs = cs.takeWhile (fun c => c.isDigit) ++ ('.' :: rest1) := by
      conv_lhs => rw [← List.takeWhile_append_dropWhile (fun c => c.isDigit) cs]
      rw [hr1]
    have e2eq : rest1 = rest1.takeWhile (fun c => c.isDigit) ++ ('.' :: rest2) := by
      conv_lhs => rw [← List.takeWhile_append_dropWhile (fun c => c.isDigit) rest1]
      rw [hr2]
    refine ⟨cs.takeWhile (fun c => c.isDigit), rest1.takeWhile (fun c => c.isDigit), rest2,
      h1, h2, ?_, ?_, ?_⟩
    · intro c hc; exact List.mem_takeWhile_imp hc
    · intro c hc; exact List.mem_takeWhile_imp hc
    · conv_lhs => rw [e1eq]
      exact congrArg (fun t => cs.takeWhile (fun c => c.isDigit) ++ '.' :: t) e2eq
  · rintro ⟨a, b, r, ha, hb, hda, hdb, rfl⟩
    rw [parseChars_shape a b r ha hb hda hdb]
    rfl

theorem parse_shape_eq (a b r : String) (ha : a ≠ "") (hb : b ≠ "")
    (hda : ∀ c ∈ a.data, c.isDigit = true) (hdb : ∀ c ∈ b.data, c.isDigit = true) :
    parse_pytorch_version (a ++ "." ++ b ++ "." ++ r) =
      some (dec (digitsToNat a.data) ++ "." ++ dec (digitsToNat b.data)) := by
  have hdata : (a ++ "." ++ b ++ "." ++ r).data = a.data ++ '.' :: (b.data ++ '.' :: r.data) := by
    simp [String.data_append]
  have hadata : a.data ≠ [] := fun h => ha ((data_eq_nil_iff a).mp h)
  have hbdata : b.data ≠ [] := fun h => hb ((data_eq_nil_iff b).mp h)
  have hne : (a ++ "." ++ b ++ "." ++ r) ≠ "" := by
    intro h
    have h2 := congrArg String.data h
    rw [hdata] at h2
    simp at h2
  rw [parse_pytorch_version, if_neg hne, hdata]
  exact parseChars_shape a.data b.data r.data hadata hbdata hda hdb

theorem parse_isSome_iff (s : String) :
    (parse_pytorch_version s).isSome = true ↔
      ∃ a b r : String, a ≠ "" ∧ b ≠ "" ∧ (∀ c ∈ a.data, c.isDigit = true) ∧
        (∀ c ∈ b.data, c.isDigit = true) ∧ s = a ++ "." ++ b ++ "." ++ r := by
  by_cases hs : s = ""
  · subst hs
    constructor
    · intro h; simp [parse_pytorch_version] at h
    · rintro ⟨a, b, r, ha, hb, hda, hdb, habs⟩
      have h2 := congrArg String.data habs
      simp [String.data_append] at h2
  · rw [parse_pytorch_version, if_neg hs]
    rw [parseChars_isSome_iff s.data]
    constructor
    · rintro ⟨a, b, r, ha, hb, hda, hdb, hdecomp⟩
      refine ⟨String.mk a, String.mk b, String.mk r, ?_, ?_, hda, hdb, ?_⟩
      · intro h; exact ha (congrArg String.data h)
      · intro h; exact hb (congrArg String.data h)
      · apply String.ext
        simp only [String.data_append]
        rw [hdecomp]
        simp
    · rintro ⟨a, b, r, ha, hb, hda, hdb, habs⟩
      refine ⟨a.data, b.data, r.data, ?_, ?_, hda, hdb, ?_⟩
      · intro h; exact ha ((data_eq_nil_iff a).mp h)
      · intro h; exact hb ((data_eq_nil_iff b).mp h)
      · have h2 := congrArg String.data habs
        simp [String.data_append] at h2
        simpa using h2

/-! ### Claims -/

/-- C1 counterexample: the claim asserts that parsing succeeds on every
string starting with two dot-separated integers, giving `"2.8"` as an
example; but the regex `^(\d+)\.(\d+)\.` requires a second trailing dot,
so `parse_pytorch_version "2.8"` fails. -/
theorem C1_counterexample : parse_pytorch_version "2.8" = none := rfl

/-- C1 (amended): `parse_pytorch_version` fails if and only if the string
does not start with two dot-separated integers followed by a further dot
(the shape `int.int.`); whenever the string does have that shape, parsing
succeeds and returns the decimal rendering of the two leading integer
components. -/
theorem C1_prop (s : String) :
    ((parse_pytorch_version s).isSome = true ↔
      ∃ a b r : String, a ≠ "" ∧ b ≠ "" ∧ (∀ c ∈ a.data, c.isDigit = true) ∧
        (∀ c ∈ b.data, c.isDigit = true) ∧ s = a ++ "." ++ b ++ "." ++ r) ∧
    (∀ a b r : String, a ≠ "" → b ≠ "" → (∀ c ∈ a.data, c.isDigit = true) →
      (∀ c ∈ b.data, c.isDigit = true) → s = a ++ "." ++ b ++ "." ++ r →
      parse_pytorch_version s =
        some (dec (digitsToNat a.data) ++ "." ++ dec (digitsToNat b.data))) :=
  ⟨parse_isSome_iff s,
   fun a b r ha hb hda hdb hs => hs ▸ parse_shape_eq a b r ha hb hda hdb⟩

/-- C1 witness: the amended claim at the concrete input `"2.8.0"`. -/
theorem C1_witness :
    (parse_pytorch_version "2.8.0").isSome = true ∧
    parse_pytorch_version "2.8.0" = some "2.8" := by
  constructor
  · exact (C1_prop "2.8.0").1.mpr
      ⟨"2", "8", "0", by decide, by decide, by decide, by decide, by decide⟩
  · exact ((C1_prop "2.8.0").2 "2" "8" "0" (by decide) (by decide) (by decide)
      (by decide) (by decide)).trans rfl

/-- C2: for every version string of the shape `X.Y.` followed by any
remainder, where `X` and `Y` are the decimal renderings of natural
numbers, `parse_pytorch_version` returns exactly `X.Y`, retaining no
further components. -/
theorem C2_prop (X Y : Nat) (s : String) :
    parse_pytorch_version (dec X ++ "." ++ dec Y ++ "." ++ s) = some (dec X ++ "." ++ dec Y) := by
  have hX : dec X ≠ "" := by
    intro h
    have h2 : (dec X).data = [] := by rw [h]
    rw [data_dec] at h2
    exact decChars_ne_nil X h2
  have hY : dec Y ≠ "" := by
    intro h
    have h2 : (dec Y).data = [] := by rw [h]
    rw [data_dec] at h2
    exact decChars_ne_nil Y h2
  have hdX : ∀ c ∈ (dec X).data, c.isDigit = true := by
    rw [data_dec]; exact decChars_isDigit X
  have hdY : ∀ c ∈ (dec Y).data, c.isDigit = true := by
    rw [data_dec]; exact decChars_isDigit Y
  rw [parse_shape_eq (dec X) (dec Y) s hX hY hdX hdY, data_dec, data_dec,
      digitsToNat_decChars, digitsToNat_decChars]

/-- C10: when parsing succeeds the result depends only on the two leading
integer components (any suffix after the second dot gives the same
result), and leading zeros are dropped: `"02.08.0"` parses to `"2.8"`. -/
theorem C10_prop (a b : String) (ha : a ≠ "") (hb : b ≠ "")
    (hda : ∀ c ∈ a.data, c.isDigit = true) (hdb : ∀ c ∈ b.data, c.isDigit = true)
    (s1 s2 : String) :
    parse_pytorch_version (a ++ "." ++ b ++ "." ++ s1) =
      parse_pytorch_version (a ++ "." ++ b ++ "." ++ s2) ∧
    parse_pytorch_version "02.08.0" = some "2.8" := by
  refine ⟨?_, rfl⟩
  rw [parse_shape_eq a b s1 ha hb hda hdb, parse_shape_eq a b s2 ha hb hda hdb]

/-- Any failing step of `get_torch_version_from_checkpoint` (missing
file, `import torch` failing, `torch.load` raising) yields `None`. -/
theorem checkpoint_step_none (po : Bool) (et : Option String) (lr : Option PyVal)
    (h : po = false ∨ et = none ∨ lr = none) :
    get_torch_version_from_checkpoint po et lr = none := by
  rcases h with h | h | h
  · subst h; rfl
  · subst h; cases po <;> rfl
  · subst h; cases po <;> cases et <;> rfl

/-- C3: when a loaded artifact is a dictionary, the version keys are
checked in priority order `hyper_parameters.torch_version`, then
`metadata.torch_version`, then the `callbacks` entries in order, and the
first value found is returned; concretely, an artifact whose
`hyper_parameters` holds `torch_version = "2.8.0"` resolves to
`("2.8.0", "2.8", "checkpoint")` whatever the environment's version. -/
theorem C3_prop :
    (∀ (entries h : List (String × PyVal)) (v : PyVal),
      List.lookup "hyper_parameters" entries = some (.vdict h) →
      List.lookup "torch_version" h = some v →
      inspectDict entries = .found v) ∧
    (∀ (entries m : List (String × PyVal)) (v : PyVal),
      List.lookup "hyper_parameters" entries = none →
      List.lookup "metadata" entries = some (.vdict m) →
      List.lookup "torch_version" m = some v →
      inspectDict entries = .found v) ∧
    (∀ (entries cbs : List (String × PyVal)),
      List.lookup "hyper_parameters" entries = none →
      List.lookup "metadata" entries = none →
      List.lookup "callbacks" entries = some (.vdict cbs) →
      inspectDict entries = checkCallbacks (cbs.map Prod.snd)) ∧
    (∀ (d : List (String × PyVal)) (v : PyVal) (rest : List PyVal),
      List.lookup "torch_version" d = some v →
      checkCallbacks (.vdict d :: rest) = .found v) ∧
    (∀ (u : PyVal) (rest : List PyVal),
      (∀ d, u = .vdict d → List.lookup "torch_version" d = none) →
      checkCallbacks (u :: rest) = checkCallbacks rest) ∧
    (∀ (entries : List (String × PyVal)) (v : PyVal) (tv : String),
      inspectDict entries = .found v →
      get_torch_version_from_checkpoint true (some tv) (some (.vdict entries)) = some v) ∧
    (∀ tv : String,
      main ⟨some "model.ckpt", true, some tv,
            some (.vdict [("hyper_parameters", .vdict [("torch_version", .vstr "2.8.0")])])⟩ =
        ⟨0, "PYTORCH_VERSION=2.8.0\nPYTORCH_MAJOR_MINOR=2.8\nSOURCE=checkpoint\n2.8", []⟩) := by
  refine ⟨?_, ?_, ?_, ?_, ?_, ?_, fun tv => rfl⟩
  · intro entries h v h1 h2
    simp only [inspectDict, h1, h2]
  · intro entries m v h1 h2 h3
    simp only [inspectDict, h1, checkMetadata, h2, h3]
  · intro entries cbs h1 h2 h3
    simp only [inspectDict, h1, checkMetadata, h2, checkCallbacksEntry, h3]
  · intro d v rest h
    simp only [checkCallbacks, h]
  · intro u rest h
    match u with
    | .vstr s => rfl
    | .vnone => rfl
    | .vdict d => simp only [checkCallbacks, h d rfl]
  · intro entries v tv h
    simp only [get_torch_version_from_checkpoint, h, Bool.not_true, Bool.false_eq_true,
      if_false]

/-- C3 witness: each conjunct instantiated at concrete dictionaries. -/
theorem C3_witness :
    inspectDict [("hyper_parameters", .vdict [("torch_version", .vstr "2.8.0")]),
                 ("metadata", .vdict [("torch_version", .vstr "1.9.0")])] =
      .found (.vstr "2.8.0") ∧
    inspectDict [("metadata", .vdict [("torch_version", .vstr "1.9.0")])] =
      .found (.vstr "1.9.0") ∧
    inspectDict [("callbacks", .vdict [("cb", .vdict [("torch_version", .vstr "2.2.0")])])] =
      checkCallbacks [.vdict [("torch_version", .vstr "2.2.0")]] ∧
    checkCallbacks [.vdict [("torch_version", .vstr "2.2.0")]] = .found (.vstr "2.2.0") ∧
    checkCallbacks [.vnone, .vdict [("torch_version", .vstr "2.2.0")]] =
      checkCallbacks [.vdict [("torch_version", .vstr "2.2.0")]] ∧
    get_torch_version_from_checkpoint true (some "2.1.0")
        (some (.vdict [("hyper_parameters", .vdict [("torch_version", .vstr "2.8.0")])])) =
      some (.vstr "2.8.0") ∧
    main ⟨some "model.ckpt", true, some "2.1.0",
          some (.vdict [("hyper_parameters", .vdict [("torch_version", .vstr "2.8.0")])])⟩ =
      ⟨0, "PYTORCH_VERSION=2.8.0\nPYTORCH_MAJOR_MINOR=2.8\nSOURCE=checkpoint\n2.8", []⟩ := by
  refine ⟨?_, ?_, ?_, ?_, ?_, ?_, ?_⟩
  · exact C3_prop.1 _ [("torch_version", .vstr "2.8.0")] (.vstr "2.8.0") rfl rfl
  · exact C3_prop.2.1 _ [("torch_version", .vstr "1.9.0")] (.vstr "1.9.0") rfl rfl rfl
  · exact C3_prop.2.2.1 _ [("cb", .vdict [("torch_version", .vstr "2.2.0")])] rfl rfl rfl
  · exact C3_prop.2.2.2.1 [("torch_version", .vstr "2.2.0")] (.vstr "2.2.0") _ rfl
  · exact C3_prop.2.2.2.2.1 .vnone _ (fun d hd => by cases hd)
  · exact C3_prop.2.2.2.2.2.1 _ (.vstr "2.8.0") "2.1.0" rfl
  · exact C3_prop.2.2.2.2.2.2 "2.1.0"

/-- Whenever the checkpoint step is skipped or fails (no argument, a
missing file, no importable runtime, or a failing load), `resolve` falls
through to the environment, tagged `"environment"`. -/
theorem resolve_env (w : World)
    (h : w.argPath = none ∨ w.pathOk = false ∨ w.envTorch = none ∨ w.loadResult = none) :
    resolve w = ((w.envTorch).map PyVal.vstr, "environment") := by
  have hver : (match w.argPath with
      | some p => if p = "" then none
        else get_torch_version_from_checkpoint w.pathOk w.envTorch w.loadResult
      | none => (none : Option PyVal)) = none := by
    rcases h with h | h
    · rw [h]
    · have hstep : get_torch_version_from_checkpoint w.pathOk w.envTorch w.loadResult = none := by
        rcases h with h | h | h
        · exact checkpoint_step_none _ _ _ (Or.inl h)
        · exact checkpoint_step_none _ _ _ (Or.inr (Or.inl h))
        · exact checkpoint_step_none _ _ _ (Or.inr (Or.inr h))
      cases hap : w.argPath with
      | none => rfl
      | some p => by_cases hp : p = "" <;> simp [hp, hstep]
  simp only [resolve, hver]
  rfl

/-- C4: an artifact that loads as a dictionary containing none of the
recognized version keys resolves to the active runtime's version string,
still tagged `"checkpoint"` (not `"environment"`). -/
theorem C4_prop (entries : List (String × PyVal)) (tv p : String)
    (hn : inspectDict entries = .notFound) (htv : tv ≠ "") (hp : p ≠ "") :
    get_torch_version_from_checkpoint true (some tv) (some (.vdict entries)) = some (.vstr tv) ∧
    resolve ⟨some p, true, some tv, some (.vdict entries)⟩ = (some (.vstr tv), "checkpoint") := by
  have h1 : get_torch_version_from_checkpoint true (some tv) (some (.vdict entries)) =
      some (.vstr tv) := by
    simp only [get_torch_version_from_checkpoint, hn, Bool.not_true, Bool.false_eq_true, if_false]
  refine ⟨h1, ?_⟩
  simp [resolve, hp, h1, pyTruthyOpt, pyTruthy, htv]

/-- C4 witness: an empty dictionary artifact with runtime version
`"2.8.0"`. -/
theorem C4_witness :
    get_torch_version_from_checkpoint true (some "2.8.0") (some (.vdict [])) =
      some (.vstr "2.8.0") ∧
    resolve ⟨some "model.ckpt", true, some "2.8.0", some (.vdict [])⟩ =
      (some (.vstr "2.8.0"), "checkpoint") :=
  C4_prop [] "2.8.0" "model.ckpt" rfl (by decide) (by decide)

/-- C5: every checkpoint-step failure (no argument given, path not on
disk, or `torch.load` raising) is swallowed, and with an importable
runtime the resolution falls back to the runtime's version tagged
`"environment"`. -/
theorem C5_prop (w : World) (tv : String) (henv : w.envTorch = some tv)
    (hfail : w.argPath = none ∨ w.pathOk = false ∨ w.loadResult = none) :
    resolve w = (some (.vstr tv), "environment") := by
  have hfail4 : w.argPath = none ∨ w.pathOk = false ∨ w.envTorch = none ∨ w.loadResult = none := by
    rcases hfail with h | h | h
    · exact Or.inl h
    · exact Or.inr (Or.inl h)
    · exact Or.inr (Or.inr (Or.inr h))
  rw [resolve_env w hfail4, henv]
  rfl

/-- C5 witness: a missing file with runtime version `"2.1.0"`. -/
theorem C5_witness :
    resolve ⟨some "missing.ckpt", false, some "2.1.0", none⟩ =
      (some (.vstr "2.1.0"), "environment") :=
  C5_prop ⟨some "missing.ckpt", false, some "2.1.0", none⟩ "2.1.0" rfl (Or.inr (Or.inl rfl))

/-- C6: when the runtime is not importable (which also makes the
checkpoint step yield nothing, since it `import torch`s inside its
`try`), `main` prints the unresolved diagnostic to stderr, writes
nothing to stdout, and exits with status 1. -/
theorem C6_prop (w : World) (henv : w.envTorch = none) :
    main w = ⟨1, "", ["ERROR: Could not determine PyTorch version.",
      "Please ensure PyTorch is installed or provide a valid checkpoint file."]⟩ := by
  have hres := resolve_env w (Or.inr (Or.inr (Or.inl henv)))
  rw [henv] at hres
  simp only [main, hres]
  rfl

/-- C6 witness: no argument and no runtime. -/
theorem C6_witness :
    main ⟨none, false, none, none⟩ = ⟨1, "", ["ERROR: Could not determine PyTorch version.",
      "Please ensure PyTorch is installed or provide a valid checkpoint file."]⟩ :=
  C6_prop ⟨none, false, none, none⟩ rfl

/-- C7: on any failing run `main` writes nothing to stdout; on a
successful run stdout is exactly the three `KEY=value` diagnostic lines
followed by the bare `major.minor` string. -/
theorem C7_prop (w : World) :
    ((main w).exitCode ≠ 0 → (main w).stdout = "") ∧
    ((main w).exitCode = 0 → ∃ v mm : String,
      parse_pytorch_version v = some mm ∧
      (main w).stdout = "PYTORCH_VERSION=" ++ v ++ "\n" ++ "PYTORCH_MAJOR_MINOR=" ++ mm ++
        "\n" ++ "SOURCE=" ++ (resolve w).2 ++ "\n" ++ mm) := by
  rcases hrv : (resolve w).1 with _ | v
  · constructor
    · intro _; simp [main, hrv]
    · intro h; simp [main, hrv] at h
  · match v with
    | .vnone =>
      constructor
      · intro _; simp [main, hrv, pyTruthy]
      · intro h; simp [main, hrv, pyTruthy] at h
    | .vdict [] =>
      constructor
      · intro _; simp [main, hrv, pyTruthy]
      · intro h; simp [main, hrv, pyTruthy] at h
    | .vdict (e :: d) =>
      constructor
      · intro _; simp [main, hrv, pyTruthy, parsePy]
      · intro h; simp [main, hrv, pyTruthy, parsePy] at h
    | .vstr s =>
      by_cases hs : s = ""
      · subst hs
        constructor
        · intro _; simp [main, hrv, pyTruthy]
        · intro h; simp [main, hrv, pyTruthy] at h
      · rcases hps : parse_pytorch_version s with _ | mm
        · constructor
          · intro _; simp [main, hrv, pyTruthy, hs, parsePy, hps]
          · intro h; simp [main, hrv, pyTruthy, hs, parsePy, hps] at h
        · constructor
          · intro h
            exfalso
            apply h
            simp [main, hrv, pyTruthy, hs, parsePy, hps]
          · intro _
            refine ⟨s, mm, hps, ?_⟩
            simp [main, hrv, pyTruthy, hs, parsePy, hps, pyStr]

/-- C7 witness: a failing run keeps stdout empty and a successful run
prints the three lines and the bare version. -/
theorem C7_witness :
    (main ⟨none, false, none, none⟩).stdout = "" ∧
    (∃ v mm : String, parse_pytorch_version v = some mm ∧
      (main ⟨none, false, some "2.1.0", none⟩).stdout =
        "PYTORCH_VERSION=" ++ v ++ "\n" ++ "PYTORCH_MAJOR_MINOR=" ++ mm ++ "\n" ++
        "SOURCE=" ++ (resolve ⟨none, false, some "2.1.0", none⟩).2 ++ "\n" ++ mm) :=
  ⟨(C7_prop ⟨none, false, none, none⟩).1 (by decide),
   (C7_prop ⟨none, false, some "2.1.0", none⟩).2 (by decide)⟩

/-- C8: resolution is deterministic — `main` is a pure function of the
artifact path, the artifact contents and the runtime environment, so two
runs over equal worlds produce identical output and exit status. -/
theorem C8_prop (w1 w2 : World) (h : w1 = w2) : main w1 = main w2 := by
  rw [h]

/-- C8 witness: two identical runs. -/
theorem C8_witness :
    main ⟨some "model.ckpt", false, some "2.1.0", none⟩ =
      main ⟨some "model.ckpt", false, some "2.1.0", none⟩ :=
  C8_prop ⟨some "model.ckpt", false, some "2.1.0", none⟩
    ⟨some "model.ckpt", false, some "2.1.0", none⟩ rfl

/-- C9: a falsy version value coming out of the checkpoint step (such as
an embedded empty-string `torch_version`, or `None`) is treated as no
result: `main` falls back to the environment query and the source tag
becomes `"environment"`. -/
theorem C9_prop (w : World) (p : String) (hp : w.argPath = some p) (hp2 : p ≠ "")
    (v : PyVal)
    (hstep : get_torch_version_from_checkpoint w.pathOk w.envTorch w.loadResult = some v)
    (hfalsy : pyTruthy v = false) :
    resolve w = ((w.envTorch).map PyVal.vstr, "environment") := by
  simp [resolve, hp, hp2, hstep, pyTruthyOpt, hfalsy, get_torch_version_from_env]

/-- C9 witness: a checkpoint whose `hyper_parameters.torch_version` is
the empty string, with runtime version `"2.1.0"`. -/
theorem C9_witness :
    resolve ⟨some "model.ckpt", true, some "2.1.0",
             some (.vdict [("hyper_parameters", .vdict [("torch_version", .vstr "")])])⟩ =
      (some (.vstr "2.1.0"), "environment") :=
  C9_prop ⟨some "model.ckpt", true, some "2.1.0",
      some (.vdict [("hyper_parameters", .vdict [("torch_version", .vstr "")])])⟩
    "model.ckpt" rfl (by decide) (.vstr "") rfl rfl

/-- C10 witness: suffix independence and leading-zero dropping at the
concrete components `02` and `08`. -/
theorem C10_witness :
    parse_pytorch_version ("02" ++ "." ++ "08" ++ "." ++ "0") =
      parse_pytorch_version ("02" ++ "." ++ "08" ++ "." ++ "xyz") ∧
    parse_pytorch_version "02.08.0" = some "2.8" :=
  C10_prop "02" "08" (by decide) (by decide) (by decide) (by decide) "0" "xyz"

end CheckPytorchVersion
